import Mathlib

/-!
Verification of the local event-sourced chat backend.

This file embeds the data-and-notification layer of the repository:
the command layer of `src/services/mockBackend.ts` (login, register,
createRoom, deleteRoom, getRooms, getUsers, getMessages, sendMessage),
its event broadcast mechanism (`subscribeToSocket` / `broadcast`), and
the private-room join gate of `src/components/ChatApp.tsx`
(`handleJoinPrivateSubmit` / `executeJoinRoom`).

Modelling conventions:
- `localStorage` is modelled as a `Store` record holding the three
  persisted collections (`chat_users`, `chat_rooms`, `chat_messages`).
- `Date.now()` is passed explicitly as a `now : Nat` argument wherever
  the source calls it; the template literal `` `u${Date.now()}` `` becomes
  `"u" ++ Nat.repr now`.
- A command that can `throw` returns `Except String α` together with the
  store after the command and the list of events it broadcast; a thrown
  error aborts the command before any `setStorage`/`broadcast` call, so
  the returned store is the input store and the event list is empty.
- TypeScript `string | undefined` fields become `Option String`; the
  strict equality `a === b` between a `string` and a `string | undefined`
  becomes `some a == b`.
-/

namespace ChatCore

/-- `User` record from `src/types.ts`. -/
structure User where
  id : String
  name : String
  email : String
  password : Option String
  avatar : String
  isOnline : Bool
  bio : Option String
deriving DecidableEq

/-- `Room` record from `src/types.ts`. -/
structure Room where
  id : String
  name : String
  isPrivate : Bool
  password : Option String
  createdBy : String
  description : Option String
deriving DecidableEq

/-- The `type` field of a `Message` (`'text' | 'image'`). -/
inductive MsgKind where
  | text
  | image
deriving DecidableEq

/-- `Message` record from `src/types.ts`. -/
structure Message where
  id : String
  roomId : String
  senderId : String
  senderName : String
  senderAvatar : String
  content : String
  type : MsgKind
  timestamp : Nat
deriving DecidableEq

/-- The three persisted collections (`chat_users`, `chat_rooms`,
`chat_messages` keys of `localStorage`). -/
structure Store where
  users : List User
  rooms : List Room
  messages : List Message
deriving DecidableEq

/-- Events broadcast over the simulated socket, with their payloads. -/
inductive Event where
  | USER_UPDATE (user : User)
  | USER_JOINED (user : User)
  | USER_LEFT (userId : String)
  | ROOM_CREATED (room : Room)
  | ROOM_DELETED (roomId : String)
  | NEW_MESSAGE (message : Message)
deriving DecidableEq

/-- `INITIAL_USERS` seed data of `mockBackend.ts`. -/
def INITIAL_USERS : List User :=
  [ { id := "u1", name := "Alice Test", email := "user1@test.com",
      password := some "password123",
      avatar := "https://picsum.photos/seed/u1/200", isOnline := false,
      bio := some "Love coding!" },
    { id := "u2", name := "Bob Test", email := "user2@test.com",
      password := some "password123",
      avatar := "https://picsum.photos/seed/u2/200", isOnline := false,
      bio := some "Python enthusiast" },
    { id := "u3", name := "Charlie Test", email := "user3@test.com",
      password := some "password123",
      avatar := "https://picsum.photos/seed/u3/200", isOnline := false,
      bio := none },
    { id := "u4", name := "Dave Test", email := "user4@test.com",
      password := some "password123",
      avatar := "https://picsum.photos/seed/u4/200", isOnline := false,
      bio := none },
    { id := "u5", name := "Eve Test", email := "user5@test.com",
      password := some "password123",
      avatar := "https://picsum.photos/seed/u5/200", isOnline := false,
      bio := none } ]

/-- `INITIAL_ROOMS` seed data of `mockBackend.ts`. -/
def INITIAL_ROOMS : List Room :=
  [ { id := "r1", name := "General Lobby", isPrivate := false,
      password := none, createdBy := "system",
      description := some "Welcome everyone!" },
    { id := "r2", name := "Python Devs", isPrivate := false,
      password := none, createdBy := "system",
      description := some "Talk about FastAPI" },
    { id := "r3", name := "Secret Club", isPrivate := true,
      password := some "123", createdBy := "u1",
      description := some "Shhh... Password is 123" } ]

/-- The store right after first access seeds every collection
(`getStorage` writes the `init` value on first read; messages seed to `[]`). -/
def initStore : Store :=
  { users := INITIAL_USERS, rooms := INITIAL_ROOMS, messages := [] }

/-- The predicate of `users.find` in `login`:
`u.email === email && u.password === password`. -/
def credentialsMatch (email password : String) (u : User) : Bool :=
  u.email == email && u.password == some password

/-- `mockBackend.login` (`mockBackend.ts:48-60`): find a user matching
`(email, password)` exactly, throw `Invalid credentials` if none; else set
the user online, write the users back, broadcast `USER_UPDATE`, return the
user. -/
def login (email password : String) (st : Store) :
    Except String User × Store × List Event :=
  match st.users.find? (credentialsMatch email password) with
  | none => (.error "Invalid credentials", st, [])
  | some found =>
    let user := { found with isOnline := true }
    let updatedUsers := st.users.map (fun u => if u.id == user.id then user else u)
    (.ok user, { st with users := updatedUsers }, [.USER_UPDATE user])

/-- `mockBackend.register` (`mockBackend.ts:62-80`): throw
`Email already exists` if some user has the email; else append a fresh
online user with id `u<now>`, write back, broadcast `USER_JOINED`. -/
def register (name email password : String) (now : Nat) (st : Store) :
    Except String User × Store × List Event :=
  if (st.users.find? (fun u => u.email == email)).isSome then
    (.error "Email already exists", st, [])
  else
    let newUser : User :=
      { id := "u" ++ Nat.repr now, name := name, email := email,
        password := some password,
        avatar := "https://picsum.photos/seed/" ++ Nat.repr now ++ "/200",
        isOnline := true, bio := none }
    (.ok newUser, { st with users := st.users ++ [newUser] },
      [.USER_JOINED newUser])

/-- The argument of `createRoom`: `Omit<Room, 'id'>`. -/
structure RoomSpec where
  name : String
  isPrivate : Bool
  password : Option String
  createdBy : String
  description : Option String
deriving DecidableEq

/-- `mockBackend.createRoom` (`mockBackend.ts:112-118`): append the room
with fresh id `r<now>`, write back, broadcast `ROOM_CREATED`. The source
performs no validation of any kind. -/
def createRoom (room : RoomSpec) (now : Nat) (st : Store) :
    Room × Store × List Event :=
  let newRoom : Room :=
    { id := "r" ++ Nat.repr now, name := room.name,
      isPrivate := room.isPrivate, password := room.password,
      createdBy := room.createdBy, description := room.description }
  (newRoom, { st with rooms := st.rooms ++ [newRoom] },
    [.ROOM_CREATED newRoom])

/-- `mockBackend.deleteRoom` (`mockBackend.ts:120-125`): filter the room
out by id, write back, broadcast `ROOM_DELETED`. The source takes no
requester argument and performs no ownership or existence check. -/
def deleteRoom (roomId : String) (st : Store) : Store × List Event :=
  ({ st with rooms := st.rooms.filter (fun r => r.id != roomId) },
    [.ROOM_DELETED roomId])

/-- `mockBackend.getRooms` (`mockBackend.ts:108-110`). -/
def getRooms (st : Store) : List Room :=
  st.rooms

/-- `mockBackend.getUsers` (`mockBackend.ts:128-130`). -/
def getUsers (st : Store) : List User :=
  st.users

/-- `mockBackend.getMessages` (`mockBackend.ts:133-136`): all stored
messages whose `roomId` equals the argument. -/
def getMessages (roomId : String) (st : Store) : List Message :=
  st.messages.filter (fun m => m.roomId == roomId)

/-- The argument of `sendMessage`: `Omit<Message, 'id' | 'timestamp'>`. -/
structure MessageSpec where
  roomId : String
  senderId : String
  senderName : String
  senderAvatar : String
  content : String
  type : MsgKind
deriving DecidableEq

/-- `mockBackend.sendMessage` (`mockBackend.ts:138-148`): stamp the
message with id `m<now>` and timestamp `now`, append it, write back,
broadcast `NEW_MESSAGE`. The source performs no validation of any kind. -/
def sendMessage (message : MessageSpec) (now : Nat) (st : Store) :
    Message × Store × List Event :=
  let newMessage : Message :=
    { id := "m" ++ Nat.repr now, roomId := message.roomId,
      senderId := message.senderId, senderName := message.senderName,
      senderAvatar := message.senderAvatar, content := message.content,
      type := message.type, timestamp := now }
  (newMessage, { st with messages := st.messages ++ [newMessage] },
    [.NEW_MESSAGE newMessage])

/-!
Event bus (`mockBackend.ts:30-44`). The source keeps a module-level
`Set` of listener callbacks; `subscribeToSocket` adds a callback (a JS
`Set` keeps insertion order and ignores a re-added member), and
`broadcast` runs `listeners.forEach(l => l({type, payload}))`. A callback
is an arbitrary function that may throw; `Set.forEach` does not catch, so
an exception aborts the iteration and later callbacks are never invoked.
We model a callback as a `hid`-tagged function returning
`Except String Unit` (`.error` models a throw), and delivery as the list
of `hid`s of the callbacks that were actually invoked, in order. -/

/-- A subscribed socket callback; `hid` models the JS object identity the
`Set` deduplicates on. -/
structure Listener where
  hid : Nat
  run : Event → Except String Unit

/-- `subscribeToSocket` (`mockBackend.ts:34-37`): `listeners.add(callback)`. -/
def subscribeToSocket (listeners : List Listener) (l : Listener) : List Listener :=
  if listeners.any (fun x => x.hid == l.hid) then listeners else listeners ++ [l]

/-- Delivery performed by `broadcast` (`mockBackend.ts:39-44`):
`listeners.forEach(l => l(event))`, where a throwing callback aborts the
`forEach`. Returns the `hid`s of the callbacks invoked, in order. -/
def broadcastDeliver (listeners : List Listener) (ev : Event) : List Nat :=
  match listeners with
  | [] => []
  | l :: rest =>
    match l.run ev with
    | .ok _ => l.hid :: broadcastDeliver rest ev
    | .error _ => [l.hid]

/-!
Private-room join gate (`src/components/ChatApp.tsx:134-172`).
`handleJoinPrivateSubmit` compares the typed password against the pending
room's password; on a match it runs `executeJoinRoom` (set the active
room, fetch its messages), otherwise it only sets a local
`Incorrect password` error. Neither branch writes to `localStorage` or
broadcasts, so the gate returns the store unchanged. -/

/-- Outcome of a join attempt: `Joined` carries the active room id and
the fetched message history, `Rejected` carries the local error text. -/
inductive JoinResult where
  | joined (activeRoomId : String) (messages : List Message)
  | rejected (joinError : String)
deriving DecidableEq

/-- `executeJoinRoom` (`ChatApp.tsx:148-153`): set the active room and
load its history via `mockBackend.getMessages`. -/
def executeJoinRoom (roomId : String) (st : Store) : JoinResult :=
  .joined roomId (getMessages roomId st)

/-- `handleJoinPrivateSubmit` (`ChatApp.tsx:155-165`): the source tests
`joinPassword === pendingRoom.password` (a `string` against a
`string | undefined`). -/
def handleJoinPrivateSubmit (pendingRoom : Room) (joinPassword : String)
    (st : Store) : JoinResult × Store :=
  if some joinPassword == pendingRoom.password then
    (executeJoinRoom pendingRoom.id st, st)
  else
    (.rejected "Incorrect password", st)

/-!
Injectivity of the decimal id stamps. Every fresh id in the backend is a
template literal `` `u${Date.now()}` `` / `` `r${...}` `` / `` `m${...}` ``,
i.e. a fixed prefix followed by `Nat.repr now`. We prove `Nat.repr`
injective by exhibiting the left inverse `digitsVal`. -/

/-- Value of a list of decimal digit characters (most significant first). -/
def digitsVal : List Char → Nat
  | [] => 0
  | c :: cs => (c.toNat - Char.toNat '0') * 10 ^ cs.length + digitsVal cs

theorem digitChar_val :
    ∀ m : Nat, m < 10 → (Nat.digitChar m).toNat - 48 = m := by
  decide

theorem digitsVal_toDigitsCore :
    ∀ (fuel n : Nat) (ds : List Char), n < fuel →
      digitsVal (Nat.toDigitsCore 10 fuel n ds) =
        n * 10 ^ ds.length + digitsVal ds := by
  intro fuel
  induction fuel with
  | zero => intro n ds h; omega
  | succ fuel ih =>
    intro n ds h
    by_cases h10 : n / 10 = 0
    · have hn : n < 10 := by omega
      have hstep : Nat.toDigitsCore 10 (fuel + 1) n ds =
          Nat.digitChar (n % 10) :: ds := by
        simp [Nat.toDigitsCore, h10]
      rw [hstep]
      have hm : n % 10 = n := Nat.mod_eq_of_lt hn
      simp [digitsVal, hm, digitChar_val n hn]
    · have hstep : Nat.toDigitsCore 10 (fuel + 1) n ds =
          Nat.toDigitsCore 10 fuel (n / 10) (Nat.digitChar (n % 10) :: ds) := by
        simp [Nat.toDigitsCore, h10]
      rw [hstep]
      have hlt : n / 10 < fuel := by omega
      rw [ih (n / 10) (Nat.digitChar (n % 10) :: ds) hlt]
      have hmod : (Nat.digitChar (n % 10)).toNat - 48 = n % 10 :=
        digitChar_val (n % 10) (Nat.mod_lt n (by decide))
      simp only [digitsVal, List.length_cons, Nat.pow_succ,
        show Char.toNat '0' = 48 from rfl, hmod]
      have hnm : 10 * (n / 10) + n % 10 = n := Nat.div_add_mod n 10
      conv_rhs => rw [← hnm]
      ring

theorem digitsVal_toDigits (n : Nat) : digitsVal (Nat.toDigits 10 n) = n := by
  unfold Nat.toDigits
  rw [digitsVal_toDigitsCore (n + 1) n [] (Nat.lt_succ_self n)]
  simp [digitsVal]

theorem repr_data (n : Nat) : (Nat.repr n).data = Nat.toDigits 10 n := rfl

theorem repr_inj {a b : Nat} (h : Nat.repr a = Nat.repr b) : a = b := by
  have hd : Nat.toDigits 10 a = Nat.toDigits 10 b := by
    rw [← repr_data, ← repr_data, h]
  calc a = digitsVal (Nat.toDigits 10 a) := (digitsVal_toDigits a).symm
    _ = digitsVal (Nat.toDigits 10 b) := by rw [hd]
    _ = b := digitsVal_toDigits b

theorem append_repr_inj (p : String) {a b : Nat}
    (h : p ++ Nat.repr a = p ++ Nat.repr b) : a = b := by
  apply repr_inj
  have hd := congrArg String.data h
  rw [String.data_append, String.data_append] at hd
  exact String.ext (List.append_cancel_left hd)

/-! Concrete sample data used by witnesses and counterexamples. -/

/-- A private-room spec with an empty password, as in the spec's scenario
of a `createRoom` call carrying `isPrivate:true` and an empty credential. -/
def emptyPasswordRoomSpec : RoomSpec :=
  { name := "Secret", isPrivate := true, password := some "",
    createdBy := "u1", description := none }

/-- A message spec with empty content addressed to a room id that no room
in `initStore` carries. -/
def invalidMessageSpec : MessageSpec :=
  { roomId := "r404", senderId := "u1", senderName := "Alice Test",
    senderAvatar := "https://picsum.photos/seed/u1/200", content := "",
    type := .text }

/-- An ordinary text-message spec for room `r1`. -/
def lobbyMessageSpec : MessageSpec :=
  { roomId := "r1", senderId := "u1", senderName := "Alice Test",
    senderAvatar := "https://picsum.photos/seed/u1/200", content := "hi",
    type := .text }

/-- Alice's seed record, the first entry of `INITIAL_USERS`. -/
def aliceSeed : User :=
  { id := "u1", name := "Alice Test", email := "user1@test.com",
    password := some "password123",
    avatar := "https://picsum.photos/seed/u1/200", isOnline := false,
    bio := some "Love coding!" }

/-- A listener whose callback throws on every event. -/
def throwingListener : Listener :=
  { hid := 9, run := fun _ => .error "handler crash" }

/-- A listener whose callback returns normally on every event. -/
def quietListener (n : Nat) : Listener :=
  { hid := n, run := fun _ => .ok () }

/-! Helper lemmas shared by the claim theorems. -/

theorem getMessages_sendMessage (s : MessageSpec) (now : Nat) (st : Store)
    (r : String) (hr : s.roomId = r) :
    getMessages r (sendMessage s now st).2.1 =
      getMessages r st ++ [(sendMessage s now st).1] := by
  simp [getMessages, sendMessage, List.filter_append, hr]

theorem credentialsMatch_eq_true {email password : String} {u : User} :
    credentialsMatch email password u = true ↔
      u.email = email ∧ u.password = some password := by
  simp [credentialsMatch]

end ChatCore

namespace ChatCore

/-- Claim C1 — the claim is right about the intended design and the code is
wrong: `deleteRoom` takes no requester argument and performs no ownership
check, so a deletion requested by `u2` for room `r3` (owned by `u1` per
`INITIAL_ROOMS`) removes the room and publishes `ROOM_DELETED` instead of
failing with `NotOwner` and keeping the room listed. This theorem evaluates
the code at that failing input. -/
theorem deleteRoom_ignores_ownership :
    (getRooms (deleteRoom "r3" initStore).1).map Room.id = ["r1", "r2"]
    ∧ (deleteRoom "r3" initStore).2 = [.ROOM_DELETED "r3"]
    ∧ (INITIAL_ROOMS.find? (fun r => r.id == "r3")).map Room.createdBy =
        some "u1" := by
  exact ⟨rfl, rfl, rfl⟩

/-- Claim C10 — for a `roomId` no stored room carries, `deleteRoom` does
not fail with `RoomNotFound`: the filter writes back an equal rooms
sequence, yet a `ROOM_DELETED` event carrying that id is still
published. -/
theorem deleteRoom_missing_room (roomId : String) (st : Store)
    (h : ∀ r ∈ st.rooms, r.id ≠ roomId) :
    deleteRoom roomId st = (st, [.ROOM_DELETED roomId]) := by
  have hf : st.rooms.filter (fun r => r.id != roomId) = st.rooms := by
    rw [List.filter_eq_self]
    intro r hr
    simp only [bne_iff_ne, ne_eq]
    exact h r hr
  simp [deleteRoom, hf]

/-- Witness for C10 at the concrete input `r404` on the seeded store. -/
theorem deleteRoom_missing_room_witness :
    deleteRoom "r404" initStore = (initStore, [.ROOM_DELETED "r404"]) :=
  deleteRoom_missing_room "r404" initStore (by decide)

/-- Counterexample for claim C2: `createRoom` on a private spec with an
empty password does not fail with `MissingPassword` — it appends the room
to the collection and publishes `ROOM_CREATED`. -/
theorem createRoom_empty_password_not_rejected :
    (createRoom emptyPasswordRoomSpec 7 initStore).2.1.rooms.length =
        initStore.rooms.length + 1
    ∧ (createRoom emptyPasswordRoomSpec 7 initStore).2.2 =
        [.ROOM_CREATED (createRoom emptyPasswordRoomSpec 7 initStore).1]
    ∧ (createRoom emptyPasswordRoomSpec 7 initStore).1.isPrivate = true
    ∧ (createRoom emptyPasswordRoomSpec 7 initStore).1.password = some "" := by
  exact ⟨rfl, rfl, rfl, rfl⟩

/-- Claim C2 (amended) — `createRoom` performs no credential validation:
for every private room spec, whatever its password field (empty or absent
included), the command succeeds, appends exactly the spec's room with a
fresh id, and publishes exactly one `ROOM_CREATED` event; the non-empty
password requirement is enforced only by the creation form's `required`
input in the UI, not by the command. -/
theorem createRoom_never_rejects (room : RoomSpec) (now : Nat) (st : Store)
    (hpriv : room.isPrivate = true) :
    (createRoom room now st).2.1.rooms =
        st.rooms ++ [(createRoom room now st).1]
    ∧ (createRoom room now st).2.2 =
        [.ROOM_CREATED (createRoom room now st).1]
    ∧ (createRoom room now st).1.password = room.password
    ∧ (createRoom room now st).1.isPrivate = true := by
  refine ⟨rfl, rfl, rfl, ?_⟩
  simp [createRoom, hpriv]

/-- Witness for the amended C2 at a private spec with an empty password. -/
theorem createRoom_never_rejects_witness :
    (createRoom emptyPasswordRoomSpec 8 initStore).2.1.rooms =
        initStore.rooms ++ [(createRoom emptyPasswordRoomSpec 8 initStore).1]
    ∧ (createRoom emptyPasswordRoomSpec 8 initStore).2.2 =
        [.ROOM_CREATED (createRoom emptyPasswordRoomSpec 8 initStore).1]
    ∧ (createRoom emptyPasswordRoomSpec 8 initStore).1.password = some ""
    ∧ (createRoom emptyPasswordRoomSpec 8 initStore).1.isPrivate = true :=
  createRoom_never_rejects emptyPasswordRoomSpec 8 initStore rfl

/-- Counterexample for claim C3: a `sendMessage` call with empty content
and a `roomId` that resolves to no stored room does not fail — it persists
the message and publishes `NEW_MESSAGE`. -/
theorem sendMessage_invalid_not_rejected :
    (sendMessage invalidMessageSpec 3 initStore).2.1.messages.length = 1
    ∧ (sendMessage invalidMessageSpec 3 initStore).2.2 =
        [.NEW_MESSAGE (sendMessage invalidMessageSpec 3 initStore).1]
    ∧ invalidMessageSpec.content = ""
    ∧ initStore.rooms.all (fun r => r.id != "r404") = true := by
  exact ⟨rfl, rfl, rfl, rfl⟩

/-- Claim C3 (amended) — `sendMessage` performs no validation: even a call
with empty content, or one whose `roomId` resolves to no stored room,
assigns the fresh id `m<now>` and timestamp `now`, appends the message,
and publishes exactly one `NEW_MESSAGE`; the UI (not the command) refuses
to send empty text input. Valid calls behave the same way. -/
theorem sendMessage_no_validation (message : MessageSpec) (now : Nat)
    (st : Store)
    (_hinvalid : message.content = "" ∨ ∀ r ∈ st.rooms, r.id ≠ message.roomId) :
    (sendMessage message now st).2.1.messages =
        st.messages ++ [(sendMessage message now st).1]
    ∧ (sendMessage message now st).2.2 =
        [.NEW_MESSAGE (sendMessage message now st).1]
    ∧ (sendMessage message now st).1.id = "m" ++ Nat.repr now
    ∧ (sendMessage message now st).1.timestamp = now := by
  exact ⟨rfl, rfl, rfl, rfl⟩

/-- Witness for the amended C3 at a doubly invalid concrete call. -/
theorem sendMessage_no_validation_witness :
    (sendMessage invalidMessageSpec 4 initStore).2.1.messages =
        initStore.messages ++ [(sendMessage invalidMessageSpec 4 initStore).1]
    ∧ (sendMessage invalidMessageSpec 4 initStore).2.2 =
        [.NEW_MESSAGE (sendMessage invalidMessageSpec 4 initStore).1]
    ∧ (sendMessage invalidMessageSpec 4 initStore).1.id = "m" ++ Nat.repr 4
    ∧ (sendMessage invalidMessageSpec 4 initStore).1.timestamp = 4 :=
  sendMessage_no_validation invalidMessageSpec 4 initStore (Or.inl rfl)

end ChatCore

namespace ChatCore

/-- Counterexample for claim C4: two `sendMessage` calls in the same
clock millisecond stamp identical ids (`m5` twice) and identical
timestamps, so Message ids are not unique and not strictly increasing in
insertion order. -/
theorem message_ids_collide_same_clock :
    ((sendMessage lobbyMessageSpec 5
        (sendMessage lobbyMessageSpec 5 initStore).2.1).2.1.messages.map
          Message.id) = ["m5", "m5"]
    ∧ ¬ ((sendMessage lobbyMessageSpec 5
        (sendMessage lobbyMessageSpec 5 initStore).2.1).2.1.messages.map
          Message.id).Nodup
    ∧ ((sendMessage lobbyMessageSpec 5
        (sendMessage lobbyMessageSpec 5 initStore).2.1).2.1.messages.map
          Message.timestamp) = [5, 5] := by
  refine ⟨rfl, ?_, rfl⟩
  decide

/-- Claim C4 (amended) — Message ids and timestamps are unique and
strictly increasing in insertion order provided the clock value strictly
increases between sends (ids collide when two sends share a millisecond):
after sending 3 messages to room `r` at strictly increasing clock values,
`getMessages r` returns exactly those 3 in insertion order, with strictly
increasing timestamps and pairwise-distinct ids. -/
theorem three_sends_strictly_increasing (r : String) (s1 s2 s3 : MessageSpec)
    (t1 t2 t3 : Nat) (st0 : Store)
    (hr1 : s1.roomId = r) (hr2 : s2.roomId = r) (hr3 : s3.roomId = r)
    (h12 : t1 < t2) (h23 : t2 < t3) (h0 : getMessages r st0 = []) :
    getMessages r (sendMessage s3 t3
        (sendMessage s2 t2 (sendMessage s1 t1 st0).2.1).2.1).2.1 =
      [(sendMessage s1 t1 st0).1,
       (sendMessage s2 t2 (sendMessage s1 t1 st0).2.1).1,
       (sendMessage s3 t3
         (sendMessage s2 t2 (sendMessage s1 t1 st0).2.1).2.1).1]
    ∧ (sendMessage s1 t1 st0).1.timestamp <
        (sendMessage s2 t2 (sendMessage s1 t1 st0).2.1).1.timestamp
    ∧ (sendMessage s2 t2 (sendMessage s1 t1 st0).2.1).1.timestamp <
        (sendMessage s3 t3
          (sendMessage s2 t2 (sendMessage s1 t1 st0).2.1).2.1).1.timestamp
    ∧ (sendMessage s1 t1 st0).1.id ≠
        (sendMessage s2 t2 (sendMessage s1 t1 st0).2.1).1.id
    ∧ (sendMessage s1 t1 st0).1.id ≠
        (sendMessage s3 t3
          (sendMessage s2 t2 (sendMessage s1 t1 st0).2.1).2.1).1.id
    ∧ (sendMessage s2 t2 (sendMessage s1 t1 st0).2.1).1.id ≠
        (sendMessage s3 t3
          (sendMessage s2 t2 (sendMessage s1 t1 st0).2.1).2.1).1.id := by
  refine ⟨?_, h12, h23, ?_, ?_, ?_⟩
  · rw [getMessages_sendMessage s3 t3 _ r hr3,
        getMessages_sendMessage s2 t2 _ r hr2,
        getMessages_sendMessage s1 t1 st0 r hr1, h0]
    simp
  · intro h
    have := append_repr_inj "m" h
    omega
  · intro h
    have := append_repr_inj "m" h
    omega
  · intro h
    have := append_repr_inj "m" h
    omega

/-- Witness for the amended C4: three sends to `r1` at clock values
1, 2, 3 from the seeded store. -/
theorem three_sends_strictly_increasing_witness :
    getMessages "r1" (sendMessage lobbyMessageSpec 3
        (sendMessage lobbyMessageSpec 2
          (sendMessage lobbyMessageSpec 1 initStore).2.1).2.1).2.1 =
      [(sendMessage lobbyMessageSpec 1 initStore).1,
       (sendMessage lobbyMessageSpec 2
         (sendMessage lobbyMessageSpec 1 initStore).2.1).1,
       (sendMessage lobbyMessageSpec 3
         (sendMessage lobbyMessageSpec 2
           (sendMessage lobbyMessageSpec 1 initStore).2.1).2.1).1]
    ∧ (sendMessage lobbyMessageSpec 1 initStore).1.timestamp <
        (sendMessage lobbyMessageSpec 2
          (sendMessage lobbyMessageSpec 1 initStore).2.1).1.timestamp
    ∧ (sendMessage lobbyMessageSpec 2
        (sendMessage lobbyMessageSpec 1 initStore).2.1).1.timestamp <
        (sendMessage lobbyMessageSpec 3
          (sendMessage lobbyMessageSpec 2
            (sendMessage lobbyMessageSpec 1 initStore).2.1).2.1).1.timestamp
    ∧ (sendMessage lobbyMessageSpec 1 initStore).1.id ≠
        (sendMessage lobbyMessageSpec 2
          (sendMessage lobbyMessageSpec 1 initStore).2.1).1.id
    ∧ (sendMessage lobbyMessageSpec 1 initStore).1.id ≠
        (sendMessage lobbyMessageSpec 3
          (sendMessage lobbyMessageSpec 2
            (sendMessage lobbyMessageSpec 1 initStore).2.1).2.1).1.id
    ∧ (sendMessage lobbyMessageSpec 2
        (sendMessage lobbyMessageSpec 1 initStore).2.1).1.id ≠
        (sendMessage lobbyMessageSpec 3
          (sendMessage lobbyMessageSpec 2
            (sendMessage lobbyMessageSpec 1 initStore).2.1).2.1).1.id :=
  three_sends_strictly_increasing "r1" lobbyMessageSpec lobbyMessageSpec
    lobbyMessageSpec 1 2 3 initStore rfl rfl rfl (by decide) (by decide) rfl

end ChatCore

namespace ChatCore

/-- Claim C5 — for every `(name, email, password)` whose email no stored
user carries, `register` succeeds and a subsequent `login(email, password)`
succeeds, returning a User whose `email` equals the given email. -/
theorem register_then_login_roundtrip (name email password : String)
    (now : Nat) (st : Store) (h : ∀ u ∈ st.users, u.email ≠ email) :
    ∃ u : User,
      (login email password (register name email password now st).2.1).1 =
          .ok u
        ∧ u.email = email := by
  have hfind : st.users.find? (fun u => u.email == email) = none := by
    rw [List.find?_eq_none]
    intro u hu
    simp only [beq_iff_eq]
    exact h u hu
  have hnoauth : st.users.find? (credentialsMatch email password) = none := by
    rw [List.find?_eq_none]
    intro u hu hc
    rw [credentialsMatch_eq_true] at hc
    exact h u hu hc.1
  simp [register, hfind, login, List.find?_append, hnoauth, credentialsMatch]

/-- Claim C6 — `register` with an email some stored user already carries
fails with the email-taken error, leaves the users collection unchanged,
and publishes no event. -/
theorem register_taken_email (name email password : String) (now : Nat)
    (st : Store) (h : ∃ u ∈ st.users, u.email = email) :
    register name email password now st =
      (.error "Email already exists", st, []) := by
  have hs : (st.users.find? (fun u => u.email == email)).isSome = true := by
    rw [List.find?_isSome]
    obtain ⟨u, hu, he⟩ := h
    exact ⟨u, hu, by simp [he]⟩
  simp [register, hs]

/-- Witness for C6: registering with Alice's seeded email. -/
theorem register_taken_email_witness :
    register "Mallory" "user1@test.com" "pw" 99 initStore =
      (.error "Email already exists", initStore, []) :=
  register_taken_email "Mallory" "user1@test.com" "pw" 99 initStore
    ⟨aliceSeed, by decide, rfl⟩

/-- Claim C7 — `login` fails with `Invalid credentials` exactly when no
stored user matches `(email, password)` by exact equality; when the find
succeeds, `login` returns the found user with `isOnline := true`, writes
the users collection back with that user replacing every record of the
same id, and publishes exactly one `USER_UPDATE` carrying the user. -/
theorem login_exact_match (email password : String) (st : Store) :
    ((login email password st).1 = .error "Invalid credentials" ↔
        ∀ u ∈ st.users, ¬(u.email = email ∧ u.password = some password))
    ∧ ∀ found, st.users.find? (credentialsMatch email password) = some found →
        login email password st =
          (.ok { found with isOnline := true },
           { st with users := st.users.map (fun u =>
               if u.id == found.id then { found with isOnline := true }
               else u) },
           [.USER_UPDATE { found with isOnline := true }]) := by
  cases hfind : st.users.find? (credentialsMatch email password) with
  | none =>
    have hall : ∀ u ∈ st.users,
        ¬(u.email = email ∧ u.password = some password) := by
      rw [List.find?_eq_none] at hfind
      intro u hu hc
      exact hfind u hu (credentialsMatch_eq_true.mpr hc)
    refine ⟨⟨fun _ => hall, fun _ => ?_⟩, fun found hf => ?_⟩
    · simp [login, hfind]
    · simp at hf
  | some found0 =>
    have hp : found0.email = email ∧ found0.password = some password :=
      credentialsMatch_eq_true.mp (List.find?_some hfind)
    have hmem := List.mem_of_find?_eq_some hfind
    refine ⟨⟨fun herr => ?_, fun hall => absurd hp (hall found0 hmem)⟩,
            fun found hf => ?_⟩
    · simp [login, hfind] at herr
    · injection hf with hfound
      subst hfound
      simp [login, hfind]

/-- Witness for C7: Alice's seeded credentials log in and flip her
online flag. -/
theorem login_exact_match_witness :
    login "user1@test.com" "password123" initStore =
      (.ok { aliceSeed with isOnline := true },
       { initStore with users := initStore.users.map (fun u =>
           if u.id == aliceSeed.id then { aliceSeed with isOnline := true }
           else u) },
       [.USER_UPDATE { aliceSeed with isOnline := true }]) :=
  (login_exact_match "user1@test.com" "password123" initStore).2 aliceSeed rfl

end ChatCore

namespace ChatCore

/-- Counterexample for claim C8: with a throwing callback subscribed
first and a well-behaved one second, `broadcast`'s `forEach` delivers the
event only to the throwing callback — the second subscriber never
receives it, so a throwing handler does prevent delivery to the rest. -/
theorem throwing_listener_blocks_delivery :
    broadcastDeliver [throwingListener, quietListener 2]
        (.ROOM_DELETED "r1") = [9]
    ∧ ([throwingListener, quietListener 2].map Listener.hid) = [9, 2] := by
  exact ⟨rfl, rfl⟩

/-- Claim C8 (amended) — `broadcast` invokes the currently subscribed
handlers in subscription order; when no handler throws, every handler
receives the event, but a throwing handler aborts the iteration, so the
handlers after the first throwing one receive nothing. -/
theorem broadcastDeliver_spec (ev : Event) :
    (∀ ls : List Listener, (∀ l ∈ ls, l.run ev = .ok ()) →
        broadcastDeliver ls ev = ls.map Listener.hid)
    ∧ ∀ (pre : List Listener) (b : Listener) (post : List Listener)
        (msg : String), (∀ l ∈ pre, l.run ev = .ok ()) →
        b.run ev = .error msg →
        broadcastDeliver (pre ++ b :: post) ev =
          pre.map Listener.hid ++ [b.hid] := by
  constructor
  · intro ls h
    induction ls with
    | nil => rfl
    | cons l rest ih =>
      have hl : l.run ev = .ok () := h l (List.mem_cons_self l rest)
      simp only [broadcastDeliver, hl, List.map_cons]
      exact congrArg _ (ih fun x hx => h x (List.mem_cons_of_mem l hx))
  · intro pre b post msg hpre hb
    induction pre with
    | nil => simp [broadcastDeliver, hb]
    | cons l rest ih =>
      have hl : l.run ev = .ok () := hpre l (List.mem_cons_self l rest)
      simp only [List.cons_append, broadcastDeliver, hl, List.map_cons,
        List.cons_append]
      exact congrArg _ (ih fun x hx => hpre x (List.mem_cons_of_mem l hx))

/-- Witness for the amended C8: two quiet listeners both receive the
event in order; a quiet listener before a throwing one receives the
event while the quiet listener after it does not. -/
theorem broadcastDeliver_spec_witness :
    broadcastDeliver [quietListener 1, quietListener 2]
        (.ROOM_DELETED "r1") = [1, 2]
    ∧ broadcastDeliver [quietListener 1, throwingListener, quietListener 3]
        (.ROOM_DELETED "r1") = [1, 9] := by
  constructor
  · refine (broadcastDeliver_spec (.ROOM_DELETED "r1")).1 _ ?_
    intro l hl
    simp only [List.mem_cons, List.not_mem_nil, or_false] at hl
    rcases hl with rfl | rfl <;> rfl
  · refine (broadcastDeliver_spec (.ROOM_DELETED "r1")).2 [quietListener 1]
      throwingListener [quietListener 3] "handler crash" ?_ rfl
    intro l hl
    simp only [List.mem_cons, List.not_mem_nil, or_false] at hl
    rcases hl with rfl
    rfl

/-- Claim C9 — for a private room, submitting a password different from
the room's transitions to `Rejected` without fetching the room's messages
and without touching the store; submitting the room's exact password
transitions to `Joined` carrying the fetched history, and `getMessages`
for that room returns only messages whose `roomId` matches it. -/
theorem join_gate_spec (room : Room) (pw : String) (st : Store)
    (_hpriv : room.isPrivate = true) :
    (some pw ≠ room.password →
        handleJoinPrivateSubmit room pw st =
          (.rejected "Incorrect password", st))
    ∧ (room.password = some pw →
        handleJoinPrivateSubmit room pw st =
            (.joined room.id (getMessages room.id st), st)
          ∧ ∀ m ∈ getMessages room.id st, m.roomId = room.id) := by
  constructor
  · intro hne
    have hb : (some pw == room.password) = false := by
      simp only [beq_eq_false_iff_ne, ne_eq]
      exact hne
    simp [handleJoinPrivateSubmit, hb]
  · intro heq
    refine ⟨?_, ?_⟩
    · simp [handleJoinPrivateSubmit, executeJoinRoom, heq]
    · intro m hm
      simp only [getMessages, List.mem_filter, beq_iff_eq] at hm
      exact hm.2

/-- Witness for C9 on the seeded private room `r3` (password `123`):
a wrong password is rejected with the store untouched, the exact password
joins and fetches the (empty) history. -/
theorem join_gate_spec_witness :
    handleJoinPrivateSubmit
        { id := "r3", name := "Secret Club", isPrivate := true,
          password := some "123", createdBy := "u1",
          description := some "Shhh... Password is 123" } "999" initStore =
      (.rejected "Incorrect password", initStore)
    ∧ handleJoinPrivateSubmit
        { id := "r3", name := "Secret Club", isPrivate := true,
          password := some "123", createdBy := "u1",
          description := some "Shhh... Password is 123" } "123" initStore =
      (.joined "r3" (getMessages "r3" initStore), initStore) := by
  refine ⟨(join_gate_spec _ "999" initStore rfl).1 (by decide),
    ((join_gate_spec _ "123" initStore rfl).2 rfl).1⟩

end ChatCore

namespace ChatCore

/-- Witness for C5: registering a fresh email on the seeded store, then
logging in with it. -/
theorem register_then_login_roundtrip_witness :
    ∃ u : User,
      (login "new@test.com" "s3cret"
          (register "Neo" "new@test.com" "s3cret" 42 initStore).2.1).1 =
          .ok u
        ∧ u.email = "new@test.com" :=
  register_then_login_roundtrip "Neo" "new@test.com" "s3cret" 42 initStore
    (by decide)

end ChatCore
